import Mathlib

/-!
Shallow embedding of the NVISII `Volume` component registry
(`src/src/visii/volume.cpp`) and proofs about its registry protocol.

The registry's global state (the slot vector `volumes`, the parallel
`volumeStructs` vector, the `lookupTable` name map, the `factoryInitialized`
flag and the `dirtyVolumes` set of slot addresses) is modelled as an explicit
`VolumeRegistry` value threaded through every operation.  C++ exceptions are
modelled by the `Outcome` type, which carries the registry state both on
success and at the throw point.  The generic `StaticFactory` helpers are not
part of the provided sources (only their callers in `volume.cpp` are), so they
are modelled from the specification's words; each such definition says so in
its doc comment.
-/

/-- The rich per-kind component record (class `Volume`): `initialized`, `name`
and `id` as in the source; the opaque nanovdb grid payload (`gridMetaData`,
`gridHdlPtr`) is abstracted to the flag `hasGrid`. -/
structure Volume where
  initialized : Bool := false
  name : String := ""
  id : Nat := 0
  hasGrid : Bool := false
  deriving DecidableEq, Repr

/-- Modelled from the spec: `VolumeStruct`, the render-ready projection stored
in the parallel struct array, is declared outside the provided sources; its
fields are opaque here and abstracted to one data word. -/
structure VolumeStruct where
  data : Nat := 0
  deriving DecidableEq, Repr

/-- The error taxonomy of the spec (section 7): `NotInitialized`,
`DuplicateName`, `CapacityExceeded`, `InvalidState`, and the
`std::runtime_error`s thrown by the file-loading lambda of
`Volume::createFromFile`, carried with their message. -/
inductive RegError where
  | notInitialized
  | duplicateName
  | capacityExceeded
  | invalidState
  | loadError (msg : String)
  deriving DecidableEq, Repr

/-- Outcome of the filesystem and nvdb-grid collaborators during
`Volume::createFromFile`: the file is readable and holds a good grid (`ok`),
or one of the three throw sites of the loading lambda fires. -/
inductive FileOutcome where
  | ok
  | missingFile
  | badGrid
  | unsupportedFormat
  deriving DecidableEq, Repr

/-- The registry's static state: `Volume::volumes`, `Volume::volumeStructs`,
`Volume::lookupTable`, `Volume::factoryInitialized` and `Volume::dirtyVolumes`
(a set of `Volume*`, modelled as the set of slot addresses). -/
structure VolumeRegistry where
  volumes : List Volume := []
  volumeStructs : List VolumeStruct := []
  lookupTable : List (String × Nat) := []
  factoryInitialized : Bool := false
  dirtyVolumes : List Nat := []
  deriving DecidableEq, Repr

/-- A registry operation's result: the returned value and the state on normal
return, or the thrown error and the state at the throw point. -/
inductive Outcome (α : Type) where
  | success : α → VolumeRegistry → Outcome α
  | failure : RegError → VolumeRegistry → Outcome α
  deriving DecidableEq, Repr

/-- The registry state an operation left behind, whether it returned or threw. -/
def Outcome.state : Outcome α → VolumeRegistry
  | Outcome.success _ st => st
  | Outcome.failure _ st => st

/-- The state before `Volume::initializeFactory` has ever run: empty vectors,
empty name table, empty dirty set, flag down. -/
def emptyRegistry : VolumeRegistry := {}

/-- A null placeholder record, as built by the default constructor `Volume()`. -/
def nullVolume : Volume := {}

/-- Insertion into `std::set`: a no-op when the element is already present. -/
def insertDirty (i : Nat) (s : List Nat) : List Nat :=
  if i ∈ s then s else i :: s

/-- `std::vector::resize(n)` with default-constructed new elements. -/
def listResize (l : List α) (n : Nat) (d : α) : List α :=
  l.take n ++ List.replicate (n - l.length) d

/-- In-place update of the element at index `i` (writing through a `Volume*`
into the slot vector); out-of-range indices leave the list unchanged. -/
def modifyAt (l : List α) (i : Nat) (f : α → α) : List α :=
  match l.get? i with
  | some a => l.set i (f a)
  | none => l

/-- First-fit scan of the slot vector for a free (`!initialized`) slot, as the
spec prescribes for `create`. -/
def firstFreeIdx : List Volume → Option Nat
  | [] => none
  | v :: rest => if v.initialized then (firstFreeIdx rest).map (· + 1) else some 0

/-- `Volume::isFactoryInitialized`. -/
def Volume.isFactoryInitialized (st : VolumeRegistry) : Bool :=
  st.factoryInitialized

/-- `Volume::initializeFactory`: a no-op when the factory is already
initialized; otherwise resizes both vectors to `maxComponents` and raises the
flag. -/
def Volume.initializeFactory (st : VolumeRegistry) (maxComponents : Nat) : VolumeRegistry :=
  if Volume.isFactoryInitialized st then st
  else { st with
    volumes := listResize st.volumes maxComponents nullVolume,
    volumeStructs := listResize st.volumeStructs maxComponents {},
    factoryInitialized := true }

/-- `Volume::areAnyDirty`: `dirtyVolumes.size() > 0`. -/
def Volume.areAnyDirty (st : VolumeRegistry) : Bool :=
  decide (0 < st.dirtyVolumes.length)

/-- `Volume::markDirty` called on the record at pointer offset `addr` from
`volumes.data()` (`getAddress()`): throws when the address lies outside the
allocated array, otherwise inserts the record into the dirty set. -/
def Volume.markDirtyAt (st : VolumeRegistry) (addr : Int) : Outcome Unit :=
  if addr < 0 ∨ (st.volumes.length : Int) ≤ addr then
    Outcome.failure RegError.invalidState st
  else
    Outcome.success () { st with dirtyVolumes := insertDirty addr.toNat st.dirtyVolumes }

/-- `Volume::updateComponents`: returns at once when the dirty set is empty,
otherwise clears it.  Nothing else is touched. -/
def Volume.updateComponents (st : VolumeRegistry) : VolumeRegistry :=
  if st.dirtyVolumes.length = 0 then st
  else { st with dirtyVolumes := [] }

/-- `Volume::getFront`: the base of the component array. -/
def Volume.getFront (st : VolumeRegistry) : List Volume :=
  st.volumes

/-- `Volume::getFrontStruct`: the base of the render-struct array. -/
def Volume.getFrontStruct (st : VolumeRegistry) : List VolumeStruct :=
  st.volumeStructs

/-- `Volume::getCount`: `volumes.size()`. -/
def Volume.getCount (st : VolumeRegistry) : Nat :=
  st.volumes.length

/-- `Volume::getNameToIdMap`: a snapshot of the lookup table. -/
def Volume.getNameToIdMap (st : VolumeRegistry) : List (String × Nat) :=
  st.lookupTable

/-- Modelled from the spec: `StaticFactory::get`, whose implementation is not
under src/ (only its caller `Volume::get` is).  Operations before
`initializeFactory` signal `NotInitialized`; otherwise the name is looked up
in the name table and `none` (a null handle) is returned when absent. -/
def StaticFactory.get (st : VolumeRegistry) (name : String) : Outcome (Option Nat) :=
  if st.factoryInitialized then
    Outcome.success (List.lookup name st.lookupTable) st
  else
    Outcome.failure RegError.notInitialized st

/-- The registry state right after `StaticFactory::create` has allocated slot
`i` for `name`: the slot holds a freshly constructed record with
`id = slot index`, the name table gains the entry, and the slot is marked
dirty. -/
def allocAt (st : VolumeRegistry) (name : String) (i : Nat) : VolumeRegistry :=
  { st with
    volumes := st.volumes.set i { initialized := true, name := name, id := i, hasGrid := false },
    lookupTable := (name, i) :: st.lookupTable,
    dirtyVolumes := insertDirty i st.dirtyVolumes }

/-- Modelled from the spec: `StaticFactory::create`, whose implementation is
not under src/.  Per the spec it signals `NotInitialized` before
`initializeFactory`, `DuplicateName` over a live name, `CapacityExceeded` when
the first-fit scan finds no free slot; on success it constructs the record in
the first free slot (id = slot index), inserts the name-table entry, marks the
slot dirty, and runs the caller-supplied construction callback (the
file-loading lambda of `Volume::createFromFile`); a callback failure aborts
the creation with that error. -/
def StaticFactory.create (st : VolumeRegistry) (name : String)
    (initFn : Nat → VolumeRegistry → Outcome Unit) : Outcome Nat :=
  if st.factoryInitialized then
    match List.lookup name st.lookupTable with
    | some _ => Outcome.failure RegError.duplicateName st
    | none =>
      match firstFreeIdx st.volumes with
      | none => Outcome.failure RegError.capacityExceeded st
      | some i =>
        match initFn i (allocAt st name i) with
        | Outcome.success _ st2 => Outcome.success i st2
        | Outcome.failure e st2 => Outcome.failure e st2
  else
    Outcome.failure RegError.notInitialized st

/-- Modelled from the spec: `StaticFactory::remove` / `removeIfExists`, whose
implementations are not under src/.  A no-op when the name is absent from the
table; otherwise the record's `initialized` flag is cleared and the name-table
entry erased (the slot becomes a null placeholder eligible for reuse). -/
def StaticFactory.removeEntry (st : VolumeRegistry) (name : String) : VolumeRegistry :=
  match List.lookup name st.lookupTable with
  | none => st
  | some i =>
    { st with
      volumes := modifyAt st.volumes i (fun v => { v with initialized := false }),
      lookupTable := st.lookupTable.filter (fun p => p.1 != name) }

/-- `Volume::get`: delegates to `StaticFactory::get`. -/
def Volume.get (st : VolumeRegistry) (name : String) : Outcome (Option Nat) :=
  StaticFactory.get st name

/-- The construction lambda of `Volume::createFromFile` (volume.cpp lines
108-146): throws when the file is missing, the grid unreadable, or the
extension unsupported; on success stores the grid handle on the record at slot
`i` and calls `markDirty` on it. -/
def Volume.loadNVDB (path : String) (fs : FileOutcome) (i : Nat)
    (st : VolumeRegistry) : Outcome Unit :=
  match fs with
  | FileOutcome.missingFile =>
    Outcome.failure (RegError.loadError ("Error: file does not exist " ++ path)) st
  | FileOutcome.badGrid =>
    Outcome.failure (RegError.loadError "Error: unable to read nvdb grid!") st
  | FileOutcome.unsupportedFormat =>
    Outcome.failure (RegError.loadError "Error: unsupported format") st
  | FileOutcome.ok =>
    Volume.markDirtyAt
      { st with volumes := modifyAt st.volumes i (fun v => { v with hasGrid := true }) }
      ((i : Nat) : Int)

/-- `Volume::createFromFile` (volume.cpp lines 107-155): runs
`StaticFactory::create` with the loading lambda; on any exception it calls
`StaticFactory::removeIfExists` on the name and rethrows. -/
def Volume.createFromFile (st : VolumeRegistry) (name path : String)
    (fs : FileOutcome) : Outcome Nat :=
  match StaticFactory.create st name (Volume.loadNVDB path fs) with
  | Outcome.success i st2 => Outcome.success i st2
  | Outcome.failure e st2 => Outcome.failure e (StaticFactory.removeEntry st2 name)

/-- `Volume::remove` (volume.cpp lines 166-172): return at once when `get`
finds nothing; otherwise remember the record's id, run `StaticFactory::remove`,
and insert the retired slot's address into the dirty set. -/
def Volume.remove (st : VolumeRegistry) (name : String) : Outcome Unit :=
  match Volume.get st name with
  | Outcome.failure e st2 => Outcome.failure e st2
  | Outcome.success none st2 => Outcome.success () st2
  | Outcome.success (some i) st2 =>
    let oldID := (match st2.volumes.get? i with | some v => v.id | none => 0)
    let st3 := StaticFactory.removeEntry st2 name
    Outcome.success () { st3 with dirtyVolumes := insertDirty oldID st3.dirtyVolumes }

/-- The loop body of `Volume::clearAll`: visit each slot index in order and
remove the record found there when it is live in the current state. -/
def Volume.clearAllGo : List Nat → VolumeRegistry → Outcome Unit
  | [], st => Outcome.success () st
  | i :: rest, st =>
    match st.volumes.get? i with
    | none => Volume.clearAllGo rest st
    | some v =>
      if v.initialized then
        match Volume.remove st v.name with
        | Outcome.failure e st2 => Outcome.failure e st2
        | Outcome.success _ st2 => Volume.clearAllGo rest st2
      else
        Volume.clearAllGo rest st

/-- `Volume::clearAll` (volume.cpp lines 86-95): silently returns before the
factory is initialized; otherwise removes every live record. -/
def Volume.clearAll (st : VolumeRegistry) : Outcome Unit :=
  if Volume.isFactoryInitialized st then
    Volume.clearAllGo (List.range st.volumes.length) st
  else
    Outcome.success () st

/-- A capacity-one registry: `initializeFactory(1)` on a fresh process state. -/
def regOne : VolumeRegistry := Volume.initializeFactory emptyRegistry 1

/-- `regOne` after a successful `createFromFile("a", "a.nvdb")`. -/
def regOneA : VolumeRegistry :=
  (Volume.createFromFile regOne "a" "a.nvdb" FileOutcome.ok).state

/-- `regOneA` after `remove("a")`: the only record is retired, and the retired
slot sits in the dirty set. -/
def regOneARemoved : VolumeRegistry := (Volume.remove regOneA "a").state

/-- A one-slot registry state with a live dirty record and render struct `0`. -/
def c2StateA : VolumeRegistry :=
  { volumes := [{ initialized := true, name := "a", id := 0, hasGrid := true }],
    volumeStructs := [{ data := 0 }],
    lookupTable := [("a", 0)],
    factoryInitialized := true,
    dirtyVolumes := [0] }

/-- The same registry state as `c2StateA` except that the render struct reads
`1`: the records agree, the struct arrays differ. -/
def c2StateB : VolumeRegistry := { c2StateA with volumeStructs := [{ data := 1 }] }

/-! ### Helper lemmas about the list-level primitives -/

theorem length_listResize (l : List α) (n : Nat) (d : α) :
    (listResize l n d).length = n := by
  simp only [listResize, List.length_append, List.length_take, List.length_replicate]
  omega

theorem length_modifyAt (l : List α) (i : Nat) (f : α → α) :
    (modifyAt l i f).length = l.length := by
  unfold modifyAt
  split <;> simp

theorem get?_set_self {l : List α} {i : Nat} (a : α) (h : i < l.length) :
    (l.set i a).get? i = some a := by
  rw [List.get?_set_eq, List.get?_eq_get h]
  rfl

theorem get?_modifyAt_self (l : List α) (i : Nat) (f : α → α) :
    (modifyAt l i f).get? i = (l.get? i).map f := by
  cases h : l.get? i with
  | none =>
    simp only [modifyAt, h, Option.map_none']
  | some a =>
    simp only [modifyAt, h, Option.map_some']
    rw [List.get?_set_eq, h]
    rfl

theorem mem_modifyAt {l : List α} {i : Nat} {f : α → α} {x : α}
    (h : x ∈ modifyAt l i f) : x ∈ l ∨ ∃ a ∈ l, x = f a := by
  unfold modifyAt at h
  split at h
  next a ha =>
    rcases List.mem_or_eq_of_mem_set h with h1 | h1
    · exact Or.inl h1
    · exact Or.inr ⟨a, List.get?_mem ha, h1⟩
  next => exact Or.inl h

theorem mem_insertDirty_self (i : Nat) (s : List Nat) : i ∈ insertDirty i s := by
  unfold insertDirty
  split
  · assumption
  · exact List.mem_cons_self i s

theorem length_insertDirty_pos (i : Nat) (s : List Nat) :
    0 < (insertDirty i s).length := by
  unfold insertDirty
  split
  · exact List.length_pos_of_mem (by assumption)
  · simp

theorem lookup_filter_self (name : String) (t : List (String × Nat)) :
    List.lookup name (t.filter (fun p => p.1 != name)) = none := by
  induction t with
  | nil => rfl
  | cons p rest ih =>
    rcases p with ⟨k, v⟩
    by_cases h : k = name
    · simp [List.filter_cons, h, ih]
    · simp only [List.filter_cons]
      have hb : (k != name) = true := by simpa using h
      simp only [hb, if_true, List.lookup_cons]
      have : (name == k) = false := by simpa using fun e => h e.symm
      simp [this, ih]

theorem firstFreeIdx_lt_length {l : List Volume} {i : Nat}
    (h : firstFreeIdx l = some i) : i < l.length := by
  induction l generalizing i with
  | nil => simp [firstFreeIdx] at h
  | cons v rest ih =>
    unfold firstFreeIdx at h
    split at h
    · cases hr : firstFreeIdx rest with
      | none => rw [hr] at h; simp at h
      | some j =>
        rw [hr] at h
        simp only [Option.map_some'] at h
        injection h with h
        have := ih hr
        simp only [List.length_cons]
        omega
    · injection h with h
      simp only [List.length_cons]
      omega

/-! ### Elimination and frame lemmas for the registry operations -/

theorem get_state (st : VolumeRegistry) (name : String) :
    (Volume.get st name).state = st := by
  unfold Volume.get StaticFactory.get
  split <;> rfl

theorem get_success_elim {st st2 : VolumeRegistry} {name : String} {o : Option Nat}
    (h : Volume.get st name = Outcome.success o st2) :
    st2 = st ∧ st.factoryInitialized = true ∧ o = List.lookup name st.lookupTable := by
  unfold Volume.get StaticFactory.get at h
  split at h
  · injection h with h1 h2
    exact ⟨h2.symm, by assumption, h1.symm⟩
  · simp at h

theorem get_failure_elim {st st2 : VolumeRegistry} {name : String} {e : RegError}
    (h : Volume.get st name = Outcome.failure e st2) :
    st2 = st ∧ e = RegError.notInitialized ∧ st.factoryInitialized = false := by
  unfold Volume.get StaticFactory.get at h
  split at h
  · simp at h
  · injection h with h1 h2
    refine ⟨h2.symm, h1.symm, ?_⟩
    simp_all

theorem create_success_elim {st st' : VolumeRegistry} {name : String}
    {f : Nat → VolumeRegistry → Outcome Unit} {i : Nat}
    (h : StaticFactory.create st name f = Outcome.success i st') :
    st.factoryInitialized = true ∧
    List.lookup name st.lookupTable = none ∧
    firstFreeIdx st.volumes = some i ∧
    f i (allocAt st name i) = Outcome.success () st' := by
  unfold StaticFactory.create at h
  split at h
  · rename_i hinit
    split at h
    · simp at h
    · rename_i hdup
      split at h
      · simp at h
      · rename_i i0 hfree
        split at h
        · rename_i u st2 hcall
          injection h with h1 h2
          subst h1
          subst h2
          cases u
          exact ⟨hinit, hdup, hfree, hcall⟩
        · simp at h
  · simp at h

theorem loadNVDB_success_elim {path : String} {fs : FileOutcome} {i : Nat}
    {st st' : VolumeRegistry} {u : Unit}
    (h : Volume.loadNVDB path fs i st = Outcome.success u st') :
    fs = FileOutcome.ok ∧ i < st.volumes.length ∧
    st' = { st with
      volumes := modifyAt st.volumes i (fun v => { v with hasGrid := true }),
      dirtyVolumes := insertDirty i st.dirtyVolumes } := by
  cases fs
  case missingFile => simp [Volume.loadNVDB] at h
  case badGrid => simp [Volume.loadNVDB] at h
  case unsupportedFormat => simp [Volume.loadNVDB] at h
  case ok =>
    simp only [Volume.loadNVDB] at h
    unfold Volume.markDirtyAt at h
    split at h
    · simp at h
    · rename_i hcond
      push_neg at hcond
      obtain ⟨h1, h2⟩ := hcond
      injection h with hu hst
      rw [length_modifyAt] at h2
      refine ⟨rfl, by omega, ?_⟩
      rw [← hst]
      rfl

theorem loadNVDB_failure_elim {path : String} {fs : FileOutcome} {i : Nat}
    {st : VolumeRegistry} (hfs : fs ≠ FileOutcome.ok) :
    ∃ msg, Volume.loadNVDB path fs i st = Outcome.failure (RegError.loadError msg) st := by
  cases fs
  case ok => exact absurd rfl hfs
  all_goals exact ⟨_, rfl⟩

theorem removeEntry_frame (st : VolumeRegistry) (name : String) :
    (StaticFactory.removeEntry st name).volumes.length = st.volumes.length ∧
    (StaticFactory.removeEntry st name).volumeStructs = st.volumeStructs ∧
    (StaticFactory.removeEntry st name).factoryInitialized = st.factoryInitialized := by
  unfold StaticFactory.removeEntry
  split
  · exact ⟨rfl, rfl, rfl⟩
  · exact ⟨length_modifyAt st.volumes _ _, rfl, rfl⟩

theorem loadNVDB_state_frame (path : String) (fs : FileOutcome) (i : Nat)
    (st : VolumeRegistry) :
    (Volume.loadNVDB path fs i st).state.volumes.length = st.volumes.length ∧
    (Volume.loadNVDB path fs i st).state.volumeStructs = st.volumeStructs ∧
    (Volume.loadNVDB path fs i st).state.factoryInitialized = st.factoryInitialized := by
  cases fs
  case missingFile => exact ⟨rfl, rfl, rfl⟩
  case badGrid => exact ⟨rfl, rfl, rfl⟩
  case unsupportedFormat => exact ⟨rfl, rfl, rfl⟩
  case ok =>
    simp only [Volume.loadNVDB]
    unfold Volume.markDirtyAt
    split
    · exact ⟨length_modifyAt st.volumes _ _, rfl, rfl⟩
    · exact ⟨length_modifyAt st.volumes _ _, rfl, rfl⟩

theorem create_state_frame (st : VolumeRegistry) (name : String)
    (f : Nat → VolumeRegistry → Outcome Unit)
    (hf : ∀ j s, (f j s).state.volumes.length = s.volumes.length ∧
                 (f j s).state.volumeStructs = s.volumeStructs ∧
                 (f j s).state.factoryInitialized = s.factoryInitialized) :
    (StaticFactory.create st name f).state.volumes.length = st.volumes.length ∧
    (StaticFactory.create st name f).state.volumeStructs = st.volumeStructs ∧
    (StaticFactory.create st name f).state.factoryInitialized = st.factoryInitialized := by
  unfold StaticFactory.create
  split
  · split
    · exact ⟨rfl, rfl, rfl⟩
    · split
      · exact ⟨rfl, rfl, rfl⟩
      · rename_i i hfree
        obtain ⟨ha, hb, hc⟩ := hf i (allocAt st name i)
        cases hcall : f i (allocAt st name i) with
        | success u s2 =>
          rw [hcall] at ha hb hc
          simp only [Outcome.state] at ha hb hc
          simp only [allocAt, List.length_set] at ha hb hc
          exact ⟨ha, hb, hc⟩
        | failure e s2 =>
          rw [hcall] at ha hb hc
          simp only [Outcome.state] at ha hb hc
          simp only [allocAt, List.length_set] at ha hb hc
          exact ⟨ha, hb, hc⟩
  · exact ⟨rfl, rfl, rfl⟩

theorem createFromFile_state_frame (st : VolumeRegistry) (name path : String)
    (fs : FileOutcome) :
    (Volume.createFromFile st name path fs).state.volumes.length = st.volumes.length ∧
    (Volume.createFromFile st name path fs).state.volumeStructs = st.volumeStructs ∧
    (Volume.createFromFile st name path fs).state.factoryInitialized = st.factoryInitialized := by
  unfold Volume.createFromFile
  have hcf := create_state_frame st name (Volume.loadNVDB path fs)
    (fun j s => loadNVDB_state_frame path fs j s)
  cases hc : StaticFactory.create st name (Volume.loadNVDB path fs) with
  | success i st2 =>
    rw [hc] at hcf
    simp only [Outcome.state] at hcf
    exact hcf
  | failure e st2 =>
    rw [hc] at hcf
    simp only [Outcome.state] at hcf
    obtain ⟨h1, h2, h3⟩ := removeEntry_frame st2 name
    exact ⟨h1.trans hcf.1, h2.trans hcf.2.1, h3.trans hcf.2.2⟩

theorem remove_state_frame (st : VolumeRegistry) (name : String) :
    (Volume.remove st name).state.volumes.length = st.volumes.length ∧
    (Volume.remove st name).state.volumeStructs = st.volumeStructs ∧
    (Volume.remove st name).state.factoryInitialized = st.factoryInitialized := by
  unfold Volume.remove
  cases hg : Volume.get st name with
  | failure e st2 =>
    obtain ⟨rfl, -, -⟩ := get_failure_elim hg
    exact ⟨rfl, rfl, rfl⟩
  | success o st2 =>
    obtain ⟨rfl, -, -⟩ := get_success_elim hg
    cases o with
    | none => exact ⟨rfl, rfl, rfl⟩
    | some i =>
      simp only [Outcome.state]
      exact removeEntry_frame _ name

theorem clearAllGo_state_frame (idxs : List Nat) (st : VolumeRegistry) :
    (Volume.clearAllGo idxs st).state.volumes.length = st.volumes.length ∧
    (Volume.clearAllGo idxs st).state.volumeStructs = st.volumeStructs ∧
    (Volume.clearAllGo idxs st).state.factoryInitialized = st.factoryInitialized := by
  induction idxs generalizing st with
  | nil => exact ⟨rfl, rfl, rfl⟩
  | cons i rest ih =>
    unfold Volume.clearAllGo
    cases hv : st.volumes.get? i with
    | none => exact ih st
    | some v =>
      by_cases hvi : v.initialized = true
      · simp only [hvi, if_true]
        cases hr : Volume.remove st v.name with
        | failure e st2 =>
          have hrf := remove_state_frame st v.name
          rw [hr] at hrf
          simp only [Outcome.state] at hrf
          exact hrf
        | success u st2 =>
          have hrf := remove_state_frame st v.name
          rw [hr] at hrf
          simp only [Outcome.state] at hrf
          obtain ⟨h1, h2, h3⟩ := ih st2
          exact ⟨h1.trans hrf.1, h2.trans hrf.2.1, h3.trans hrf.2.2⟩
      · simp only [hvi, if_false]
        exact ih st

theorem clearAll_state_frame (st : VolumeRegistry) :
    (Volume.clearAll st).state.volumes.length = st.volumes.length ∧
    (Volume.clearAll st).state.volumeStructs = st.volumeStructs ∧
    (Volume.clearAll st).state.factoryInitialized = st.factoryInitialized := by
  unfold Volume.clearAll
  split
  · exact clearAllGo_state_frame (List.range st.volumes.length) st
  · exact ⟨rfl, rfl, rfl⟩

/-! ### Evaluation lemmas: closed forms of the successful paths -/

theorem markDirtyAt_success {st : VolumeRegistry} {i : Nat} (h : i < st.volumes.length) :
    Volume.markDirtyAt st ((i : Nat) : Int) =
      Outcome.success () { st with dirtyVolumes := insertDirty i st.dirtyVolumes } := by
  unfold Volume.markDirtyAt
  rw [if_neg]
  · rfl
  · push_neg
    exact ⟨Int.natCast_nonneg i, by exact_mod_cast h⟩

theorem loadNVDB_ok_eval {path : String} {i : Nat} {st : VolumeRegistry}
    (h : i < st.volumes.length) :
    Volume.loadNVDB path FileOutcome.ok i st =
      Outcome.success () { st with
        volumes := modifyAt st.volumes i (fun v => { v with hasGrid := true }),
        dirtyVolumes := insertDirty i st.dirtyVolumes } := by
  have hx : i < ({ st with
      volumes := modifyAt st.volumes i (fun v => { v with hasGrid := true }) } :
      VolumeRegistry).volumes.length := by
    simpa [length_modifyAt] using h
  have hm := markDirtyAt_success hx
  simp only [Volume.loadNVDB]
  rw [hm]

theorem create_ok_eval {st st2 : VolumeRegistry} {name : String} {i : Nat}
    {f : Nat → VolumeRegistry → Outcome Unit}
    (hinit : st.factoryInitialized = true)
    (hdup : List.lookup name st.lookupTable = none)
    (hfree : firstFreeIdx st.volumes = some i)
    (hcall : f i (allocAt st name i) = Outcome.success () st2) :
    StaticFactory.create st name f = Outcome.success i st2 := by
  simp only [StaticFactory.create, hinit, hdup, hfree, hcall, if_true]

theorem create_fail_eval {st st2 : VolumeRegistry} {name : String} {i : Nat}
    {e : RegError} {f : Nat → VolumeRegistry → Outcome Unit}
    (hinit : st.factoryInitialized = true)
    (hdup : List.lookup name st.lookupTable = none)
    (hfree : firstFreeIdx st.volumes = some i)
    (hcall : f i (allocAt st name i) = Outcome.failure e st2) :
    StaticFactory.create st name f = Outcome.failure e st2 := by
  simp only [StaticFactory.create, hinit, hdup, hfree, hcall, if_true]

theorem createFromFile_ok_eval {st : VolumeRegistry} {name path : String} {i : Nat}
    (hinit : st.factoryInitialized = true)
    (hdup : List.lookup name st.lookupTable = none)
    (hfree : firstFreeIdx st.volumes = some i) :
    Volume.createFromFile st name path FileOutcome.ok =
      Outcome.success i { allocAt st name i with
        volumes := modifyAt (allocAt st name i).volumes i (fun v => { v with hasGrid := true }),
        dirtyVolumes := insertDirty i (allocAt st name i).dirtyVolumes } := by
  have hlt : i < (allocAt st name i).volumes.length := by
    simp only [allocAt, List.length_set]
    exact firstFreeIdx_lt_length hfree
  have hcall := @loadNVDB_ok_eval path i (allocAt st name i) hlt
  have hc := create_ok_eval hinit hdup hfree hcall
  unfold Volume.createFromFile
  rw [hc]

theorem remove_found_eval {st : VolumeRegistry} {name : String} {i : Nat} {v : Volume}
    (hget : Volume.get st name = Outcome.success (some i) st)
    (hv : st.volumes.get? i = some v) :
    Volume.remove st name = Outcome.success ()
      { StaticFactory.removeEntry st name with
        dirtyVolumes := insertDirty v.id (StaticFactory.removeEntry st name).dirtyVolumes } := by
  unfold Volume.remove
  rw [hget]
  simp only [hv]

theorem removeEntry_found_eval {st : VolumeRegistry} {name : String} {i : Nat}
    (hl : List.lookup name st.lookupTable = some i) :
    StaticFactory.removeEntry st name =
      { st with
        volumes := modifyAt st.volumes i (fun v => { v with initialized := false }),
        lookupTable := st.lookupTable.filter (fun p => p.1 != name) } := by
  unfold StaticFactory.removeEntry
  rw [hl]

/-! ### Small behavioural lemmas for updateComponents -/

theorem updateComponents_eq (st : VolumeRegistry) :
    Volume.updateComponents st = { st with dirtyVolumes := [] } := by
  unfold Volume.updateComponents
  split
  · rename_i h
    have h0 : st.dirtyVolumes = [] := List.length_eq_zero.mp h
    cases st
    simp_all
  · rfl

theorem updateComponents_dirty (st : VolumeRegistry) :
    (Volume.updateComponents st).dirtyVolumes = [] := by
  rw [updateComponents_eq]

theorem updateComponents_of_clean {st : VolumeRegistry} (h : st.dirtyVolumes = []) :
    Volume.updateComponents st = st := by
  rw [updateComponents_eq]
  cases st
  simp_all

/-! ### The claims -/

/-- C8: calling `updateComponents()` twice in a row with no intervening mutation
makes the second call a no-op: `areAnyDirty()` is false after the first call and
remains false after the second, and the second call returns the state unchanged. -/
theorem updateComponents_idempotent (st : VolumeRegistry) :
    Volume.areAnyDirty (Volume.updateComponents st) = false ∧
    Volume.updateComponents (Volume.updateComponents st) = Volume.updateComponents st ∧
    Volume.areAnyDirty (Volume.updateComponents (Volume.updateComponents st)) = false := by
  have h1 : Volume.areAnyDirty (Volume.updateComponents st) = false := by
    unfold Volume.areAnyDirty
    rw [updateComponents_dirty]
    rfl
  have h2 := updateComponents_of_clean (updateComponents_dirty st)
  exact ⟨h1, h2, by rw [h2]; exact h1⟩

/-- C10: `updateComponents()` leaves the record array, the render-struct array,
the name table and the factory flag exactly unchanged; its only state change is
emptying the dirty set. -/
theorem updateComponents_frame (st : VolumeRegistry) :
    (Volume.updateComponents st).volumes = st.volumes ∧
    (Volume.updateComponents st).volumeStructs = st.volumeStructs ∧
    (Volume.updateComponents st).lookupTable = st.lookupTable ∧
    (Volume.updateComponents st).factoryInitialized = st.factoryInitialized ∧
    (Volume.updateComponents st).dirtyVolumes = [] := by
  rw [updateComponents_eq]
  exact ⟨rfl, rfl, rfl, rfl, rfl⟩

/-- C2 counterexample: two registry states that agree on every record field and
on the dirty set, but whose render structs differ; after `updateComponents()`
the render structs still differ, so the pass does not recompute the dirty
record's render struct from the record's current field values (it leaves the
struct array untouched). -/
theorem updateComponents_no_recompute :
    c2StateA.volumes = c2StateB.volumes ∧
    c2StateA.dirtyVolumes = c2StateB.dirtyVolumes ∧
    0 ∈ c2StateA.dirtyVolumes ∧
    (Volume.updateComponents c2StateA).volumeStructs ≠
      (Volume.updateComponents c2StateB).volumeStructs := by
  refine ⟨rfl, rfl, by decide, ?_⟩
  decide

/-- C2 (amended): `updateComponents()` removes every record from the dirty set
(transitioning each to Clean) and leaves the record array and the render-struct
array unchanged — the render structs are not recomputed; when the dirty set is
empty the call is a no-op returning the state unchanged. -/
theorem updateComponents_clears_dirty_only (st : VolumeRegistry) :
    (Volume.updateComponents st).dirtyVolumes = [] ∧
    (Volume.updateComponents st).volumeStructs = st.volumeStructs ∧
    (Volume.updateComponents st).volumes = st.volumes ∧
    (st.dirtyVolumes = [] → Volume.updateComponents st = st) := by
  rw [updateComponents_eq]
  refine ⟨rfl, rfl, rfl, fun h => ?_⟩
  cases st
  simp_all

theorem updateComponents_clears_dirty_only_witness :
    (Volume.updateComponents emptyRegistry).dirtyVolumes = [] ∧
    (Volume.updateComponents emptyRegistry).volumeStructs = emptyRegistry.volumeStructs ∧
    (Volume.updateComponents emptyRegistry).volumes = emptyRegistry.volumes ∧
    Volume.updateComponents emptyRegistry = emptyRegistry :=
  ⟨(updateComponents_clears_dirty_only emptyRegistry).1,
   (updateComponents_clears_dirty_only emptyRegistry).2.1,
   (updateComponents_clears_dirty_only emptyRegistry).2.2.1,
   (updateComponents_clears_dirty_only emptyRegistry).2.2.2 rfl⟩

/-- C4 counterexample: on the never-initialized state, `updateComponents`,
`areAnyDirty`, `clearAll`, `getFront` and `getFrontStruct` all complete
normally instead of signalling a `NotInitialized` error, refuting the claim
that every registry operation other than `initializeFactory` errors before
`initializeFactory` has been called. -/
theorem preInit_ops_do_not_error :
    emptyRegistry.factoryInitialized = false ∧
    Volume.updateComponents emptyRegistry = emptyRegistry ∧
    Volume.areAnyDirty emptyRegistry = false ∧
    Volume.clearAll emptyRegistry = Outcome.success () emptyRegistry ∧
    Volume.getFront emptyRegistry = [] ∧
    Volume.getFrontStruct emptyRegistry = [] := by
  refine ⟨rfl, ?_, rfl, ?_, rfl, rfl⟩
  · exact updateComponents_of_clean rfl
  · rfl

/-- C4 (amended): before `initializeFactory`, the operations routed through the
modelled StaticFactory (`get`, `createFromFile`, `remove`) signal
`NotInitialized`, but the operations implemented directly in volume.cpp do not:
`updateComponents` just empties the dirty set, `clearAll` silently returns, and
`getFront`/`getFrontStruct` return the (still unallocated) arrays without
signalling any error. -/
theorem preInit_behavior (st : VolumeRegistry) (name path : String) (fs : FileOutcome)
    (h : st.factoryInitialized = false)
    (hname : List.lookup name st.lookupTable = none) :
    Volume.get st name = Outcome.failure RegError.notInitialized st ∧
    Volume.createFromFile st name path fs = Outcome.failure RegError.notInitialized st ∧
    Volume.remove st name = Outcome.failure RegError.notInitialized st ∧
    Volume.updateComponents st = { st with dirtyVolumes := [] } ∧
    Volume.clearAll st = Outcome.success () st ∧
    Volume.getFront st = st.volumes ∧
    Volume.getFrontStruct st = st.volumeStructs := by
  have hget : Volume.get st name = Outcome.failure RegError.notInitialized st := by
    unfold Volume.get StaticFactory.get
    rw [if_neg]
    simp [h]
  have hre : StaticFactory.removeEntry st name = st := by
    unfold StaticFactory.removeEntry
    rw [hname]
  refine ⟨hget, ?_, ?_, updateComponents_eq st, ?_, rfl, rfl⟩
  · have hcr : StaticFactory.create st name (Volume.loadNVDB path fs) =
        Outcome.failure RegError.notInitialized st := by
      unfold StaticFactory.create
      rw [if_neg]
      simp [h]
    unfold Volume.createFromFile
    rw [hcr]
    show Outcome.failure RegError.notInitialized (StaticFactory.removeEntry st name) =
      Outcome.failure RegError.notInitialized st
    rw [hre]
  · unfold Volume.remove
    rw [hget]
  · unfold Volume.clearAll Volume.isFactoryInitialized
    rw [if_neg]
    simp [h]

theorem preInit_behavior_witness :
    Volume.get emptyRegistry "a" = Outcome.failure RegError.notInitialized emptyRegistry ∧
    Volume.createFromFile emptyRegistry "a" "a.nvdb" FileOutcome.ok =
      Outcome.failure RegError.notInitialized emptyRegistry ∧
    Volume.remove emptyRegistry "a" = Outcome.failure RegError.notInitialized emptyRegistry ∧
    Volume.updateComponents emptyRegistry = { emptyRegistry with dirtyVolumes := [] } ∧
    Volume.clearAll emptyRegistry = Outcome.success () emptyRegistry ∧
    Volume.getFront emptyRegistry = emptyRegistry.volumes ∧
    Volume.getFrontStruct emptyRegistry = emptyRegistry.volumeStructs :=
  preInit_behavior emptyRegistry "a" "a.nvdb" FileOutcome.ok rfl rfl

/-- C9: calling `markDirty` on a record whose address lies outside the
allocated slot array (address < 0 or address ≥ capacity) raises an
`InvalidState` error and leaves the registry — in particular the dirty set —
unchanged; for an address inside the array it inserts the record into the
dirty set and raises no error, touching nothing else. -/
theorem markDirty_address_check (st : VolumeRegistry) (addr : Int) :
    ((addr < 0 ∨ (st.volumes.length : Int) ≤ addr) →
      Volume.markDirtyAt st addr = Outcome.failure RegError.invalidState st) ∧
    (0 ≤ addr → addr < (st.volumes.length : Int) →
      ∃ st', Volume.markDirtyAt st addr = Outcome.success () st' ∧
        addr.toNat ∈ st'.dirtyVolumes ∧
        st'.volumes = st.volumes ∧
        st'.volumeStructs = st.volumeStructs ∧
        st'.lookupTable = st.lookupTable ∧
        st'.factoryInitialized = st.factoryInitialized) := by
  constructor
  · intro h
    unfold Volume.markDirtyAt
    rw [if_pos h]
  · intro h1 h2
    refine ⟨{ st with dirtyVolumes := insertDirty addr.toNat st.dirtyVolumes },
      ?_, mem_insertDirty_self _ _, rfl, rfl, rfl, rfl⟩
    unfold Volume.markDirtyAt
    rw [if_neg]
    push_neg
    exact ⟨h1, h2⟩

theorem markDirty_address_check_witness :
    Volume.markDirtyAt emptyRegistry 0 =
      Outcome.failure RegError.invalidState emptyRegistry ∧
    (∃ st', Volume.markDirtyAt regOne 0 = Outcome.success () st' ∧
      (0 : Int).toNat ∈ st'.dirtyVolumes ∧
      st'.volumes = regOne.volumes ∧
      st'.volumeStructs = regOne.volumeStructs ∧
      st'.lookupTable = regOne.lookupTable ∧
      st'.factoryInitialized = regOne.factoryInitialized) :=
  ⟨(markDirty_address_check emptyRegistry 0).1 (Or.inr (by decide)),
   (markDirty_address_check regOne 0).2 (by decide) (by decide)⟩

theorem initializeFactory_flag (st : VolumeRegistry) (n : Nat) :
    (Volume.initializeFactory st n).factoryInitialized = true := by
  unfold Volume.initializeFactory Volume.isFactoryInitialized
  split
  · rename_i h
    exact h
  · rfl

theorem initializeFactory_idem {st : VolumeRegistry} (h : st.factoryInitialized = true)
    (m : Nat) : Volume.initializeFactory st m = st := by
  unfold Volume.initializeFactory Volume.isFactoryInitialized
  rw [if_pos h]

/-- C1: for every state and name, when `createFromFile(name, path)` succeeds, a
subsequent `get(name)` returns a non-null handle (the slot index) to a record
whose `name` field equals the given name and whose `initialized` flag is true. -/
theorem createFromFile_then_get (st st' : VolumeRegistry) (name path : String)
    (fs : FileOutcome) (i : Nat)
    (h : Volume.createFromFile st name path fs = Outcome.success i st') :
    Volume.get st' name = Outcome.success (some i) st' ∧
    ∃ v, st'.volumes.get? i = some v ∧ v.name = name ∧ v.initialized = true := by
  unfold Volume.createFromFile at h
  cases hc : StaticFactory.create st name (Volume.loadNVDB path fs) with
  | failure e st2 =>
    rw [hc] at h
    simp at h
  | success j st2 =>
    rw [hc] at h
    have hji : j = i ∧ st2 = st' := by simpa using h
    obtain ⟨rfl, rfl⟩ := hji
    obtain ⟨hinit, hdup, hfree, hcall⟩ := create_success_elim hc
    obtain ⟨-, hlt, hsteq⟩ := loadNVDB_success_elim hcall
    have hlt0 : j < st.volumes.length := firstFreeIdx_lt_length hfree
    have htable : st2.lookupTable = (name, j) :: st.lookupTable := by
      rw [hsteq]
      rfl
    have hfi : st2.factoryInitialized = true := by
      rw [hsteq]
      exact hinit
    have hget? : st2.volumes.get? j =
        some { initialized := true, name := name, id := j, hasGrid := true } := by
      rw [hsteq]
      show (modifyAt (allocAt st name j).volumes j
        (fun v => { v with hasGrid := true })).get? j = _
      rw [get?_modifyAt_self]
      have h2 : (allocAt st name j).volumes.get? j =
          some { initialized := true, name := name, id := j, hasGrid := false } := by
        show (st.volumes.set j _).get? j = _
        exact get?_set_self _ hlt0
      rw [h2]
      rfl
    constructor
    · unfold Volume.get StaticFactory.get
      rw [if_pos hfi, htable]
      simp [List.lookup_cons]
    · exact ⟨_, hget?, rfl, rfl⟩

theorem createFromFile_then_get_witness :
    Volume.get regOneA "a" = Outcome.success (some 0) regOneA ∧
    ∃ v, regOneA.volumes.get? 0 = some v ∧ v.name = "a" ∧ v.initialized = true :=
  createFromFile_then_get regOne regOneA "a" "a.nvdb" FileOutcome.ok 0 (by decide)

/-- C3 counterexample: start from a one-slot registry, create a volume, then
remove it.  The retired slot remains in the dirty set, so `areAnyDirty()`
returns true even though no record is live (initialized) at all — refuting
"areAnyDirty() returns true iff at least one live record is dirty". -/
theorem areAnyDirty_true_without_live_dirty :
    Volume.areAnyDirty regOneARemoved = true ∧
    regOneARemoved.volumes.all (fun v => !v.initialized) = true := by
  decide

/-- C3 (amended): `areAnyDirty()` checks that the dirty set is nonempty, and the
dirty set may contain retired slots: when `remove` retires the record at slot
`i` (whose `id` field is `i`), the slot's initialized flag is cleared yet the
slot is inserted into the dirty set, so `areAnyDirty()` returns true afterwards
although that record is no longer live. -/
theorem remove_keeps_retired_slot_dirty (st : VolumeRegistry) (name : String)
    (i : Nat) (v : Volume)
    (hget : Volume.get st name = Outcome.success (some i) st)
    (hv : st.volumes.get? i = some v) (hid : v.id = i) :
    ∃ st', Volume.remove st name = Outcome.success () st' ∧
      i ∈ st'.dirtyVolumes ∧
      (st'.volumes.get? i).map (fun w => w.initialized) = some false ∧
      Volume.areAnyDirty st' = true := by
  have hlook : List.lookup name st.lookupTable = some i := by
    obtain ⟨-, -, ho⟩ := get_success_elim hget
    exact ho.symm
  have hrm := remove_found_eval hget hv
  have hree := removeEntry_found_eval hlook
  refine ⟨_, hrm, ?_, ?_, ?_⟩
  · show i ∈ insertDirty v.id (StaticFactory.removeEntry st name).dirtyVolumes
    rw [hid]
    exact mem_insertDirty_self _ _
  · show ((StaticFactory.removeEntry st name).volumes.get? i).map
      (fun w => w.initialized) = some false
    rw [hree]
    show ((modifyAt st.volumes i fun v => { v with initialized := false }).get? i).map
      (fun w => w.initialized) = some false
    rw [get?_modifyAt_self, hv]
    rfl
  · show Volume.areAnyDirty _ = true
    simp only [Volume.areAnyDirty, decide_eq_true_eq]
    exact length_insertDirty_pos _ _

theorem remove_keeps_retired_slot_dirty_witness :
    ∃ st', Volume.remove regOneA "a" = Outcome.success () st' ∧
      0 ∈ st'.dirtyVolumes ∧
      (st'.volumes.get? 0).map (fun w => w.initialized) = some false ∧
      Volume.areAnyDirty st' = true :=
  remove_keeps_retired_slot_dirty regOneA "a" 0
    { initialized := true, name := "a", id := 0, hasGrid := true }
    (by decide) (by decide) rfl

/-- C5: when the construction callback of `createFromFile` fails after the slot
has been allocated (missing file, unreadable grid, or unsupported format), the
just-created slot is removed before the error is surfaced: afterwards
`get(name)` returns null and no live (initialized) record with that name
remains in the registry. -/
theorem createFromFile_failure_rolls_back (st : VolumeRegistry) (name path : String)
    (fs : FileOutcome) (i : Nat)
    (hinit : st.factoryInitialized = true)
    (hdup : List.lookup name st.lookupTable = none)
    (hfree : firstFreeIdx st.volumes = some i)
    (hfs : fs ≠ FileOutcome.ok)
    (hclean : ∀ w ∈ st.volumes, w.initialized = true → w.name ≠ name) :
    ∃ msg st', Volume.createFromFile st name path fs =
        Outcome.failure (RegError.loadError msg) st' ∧
      Volume.get st' name = Outcome.success none st' ∧
      ∀ w ∈ st'.volumes, w.initialized = true → w.name ≠ name := by
  obtain ⟨msg, hcall⟩ := @loadNVDB_failure_elim path fs i (allocAt st name i) hfs
  have hcreate := create_fail_eval hinit hdup hfree hcall
  have hlookA : List.lookup name (allocAt st name i).lookupTable = some i := by
    show List.lookup name ((name, i) :: st.lookupTable) = some i
    simp [List.lookup_cons]
  have hree := removeEntry_found_eval hlookA
  have hcf : Volume.createFromFile st name path fs =
      Outcome.failure (RegError.loadError msg)
        (StaticFactory.removeEntry (allocAt st name i) name) := by
    unfold Volume.createFromFile
    rw [hcreate]
  have hfi : (StaticFactory.removeEntry (allocAt st name i) name).factoryInitialized
      = true := by
    rw [(removeEntry_frame (allocAt st name i) name).2.2]
    exact hinit
  have htab : List.lookup name
      (StaticFactory.removeEntry (allocAt st name i) name).lookupTable = none := by
    rw [hree]
    show List.lookup name (((name, i) :: st.lookupTable).filter
      (fun p => p.1 != name)) = none
    exact lookup_filter_self name _
  have hlt : i < st.volumes.length := firstFreeIdx_lt_length hfree
  have hvols : (StaticFactory.removeEntry (allocAt st name i) name).volumes =
      st.volumes.set i { initialized := false, name := name, id := i, hasGrid := false } := by
    rw [hree]
    show modifyAt ((allocAt st name i).volumes) i
      (fun v => { v with initialized := false }) = _
    have hg : (allocAt st name i).volumes.get? i =
        some { initialized := true, name := name, id := i, hasGrid := false } := by
      show (st.volumes.set i _).get? i = _
      exact get?_set_self _ hlt
    unfold modifyAt
    rw [hg]
    show (st.volumes.set i _).set i _ = _
    rw [List.set_set]
  refine ⟨msg, _, hcf, ?_, ?_⟩
  · unfold Volume.get StaticFactory.get
    rw [if_pos hfi, htab]
  · intro w hw hwi
    rw [hvols] at hw
    rcases List.mem_or_eq_of_mem_set hw with h1 | h1
    · exact hclean w h1 hwi
    · subst h1
      simp at hwi

theorem createFromFile_failure_rolls_back_witness :
    ∃ msg st', Volume.createFromFile regOne "a" "a.nvdb" FileOutcome.missingFile =
        Outcome.failure (RegError.loadError msg) st' ∧
      Volume.get st' "a" = Outcome.success none st' ∧
      ∀ w ∈ st'.volumes, w.initialized = true → w.name ≠ "a" :=
  createFromFile_failure_rolls_back regOne "a" "a.nvdb" FileOutcome.missingFile 0
    (by decide) (by decide) (by decide) (by decide) (by decide)

/-- C6: `initializeFactory(n)` on an uninitialized registry gives both the
record array and the struct array length `n`; every later `initializeFactory`
call (with any argument) is a no-op; and no registry operation
(`createFromFile`, `remove`, `updateComponents`, `clearAll`) changes
`getCount()` or the length of the struct array, from any state. -/
theorem capacity_fixed (st : VolumeRegistry) (n m : Nat) (name path : String)
    (fs : FileOutcome) :
    (st.factoryInitialized = false →
      Volume.getCount (Volume.initializeFactory st n) = n ∧
      (Volume.initializeFactory st n).volumeStructs.length = n) ∧
    Volume.initializeFactory (Volume.initializeFactory st n) m =
      Volume.initializeFactory st n ∧
    Volume.getCount (Volume.createFromFile st name path fs).state = Volume.getCount st ∧
    (Volume.createFromFile st name path fs).state.volumeStructs.length =
      st.volumeStructs.length ∧
    Volume.getCount (Volume.remove st name).state = Volume.getCount st ∧
    (Volume.remove st name).state.volumeStructs.length = st.volumeStructs.length ∧
    Volume.getCount (Volume.updateComponents st) = Volume.getCount st ∧
    (Volume.updateComponents st).volumeStructs.length = st.volumeStructs.length ∧
    Volume.getCount (Volume.clearAll st).state = Volume.getCount st ∧
    (Volume.clearAll st).state.volumeStructs.length = st.volumeStructs.length := by
  refine ⟨?_, ?_, ?_, ?_, ?_, ?_, ?_, ?_, ?_, ?_⟩
  · intro h
    unfold Volume.initializeFactory Volume.isFactoryInitialized
    rw [if_neg]
    · exact ⟨length_listResize st.volumes n nullVolume,
        length_listResize st.volumeStructs n {}⟩
    · simp [h]
  · exact initializeFactory_idem (initializeFactory_flag st n) m
  · exact (createFromFile_state_frame st name path fs).1
  · exact congrArg List.length (createFromFile_state_frame st name path fs).2.1
  · exact (remove_state_frame st name).1
  · exact congrArg List.length (remove_state_frame st name).2.1
  · rw [updateComponents_eq]
    rfl
  · rw [updateComponents_eq]
  · exact (clearAll_state_frame st).1
  · exact congrArg List.length (clearAll_state_frame st).2.1

theorem capacity_fixed_witness :
    Volume.getCount (Volume.initializeFactory emptyRegistry 2) = 2 ∧
    (Volume.initializeFactory emptyRegistry 2).volumeStructs.length = 2 ∧
    Volume.initializeFactory (Volume.initializeFactory emptyRegistry 2) 3 =
      Volume.initializeFactory emptyRegistry 2 ∧
    Volume.getCount (Volume.createFromFile emptyRegistry "a" "p" FileOutcome.ok).state =
      Volume.getCount emptyRegistry := by
  have h := capacity_fixed emptyRegistry 2 3 "a" "p" FileOutcome.ok
  exact ⟨(h.1 rfl).1, (h.1 rfl).2, h.2.1, h.2.2.1⟩

/-- C7: `remove(name)` is a no-op when no live record with that name exists;
otherwise it clears the record's initialized flag, erases the name-table entry
and marks the retired slot dirty, so that `get(name)` afterwards returns null
and a subsequent `createFromFile` with the same name succeeds, allocating the
first free slot — which is the same slot index when the retired slot is the
first free one. -/
theorem remove_then_get_and_recreate (st : VolumeRegistry) (name path : String) :
    (Volume.get st name = Outcome.success none st →
      Volume.remove st name = Outcome.success () st) ∧
    (∀ i v, Volume.get st name = Outcome.success (some i) st →
      st.volumes.get? i = some v → v.id = i →
      ∃ st', Volume.remove st name = Outcome.success () st' ∧
        (st'.volumes.get? i).map (fun w => w.initialized) = some false ∧
        List.lookup name st'.lookupTable = none ∧
        i ∈ st'.dirtyVolumes ∧
        Volume.get st' name = Outcome.success none st' ∧
        (∀ j, firstFreeIdx st'.volumes = some j →
          ∃ st'', Volume.createFromFile st' name path FileOutcome.ok =
            Outcome.success j st'')) := by
  constructor
  · intro hget
    unfold Volume.remove
    rw [hget]
  · intro i v hget hv hid
    have hfi0 : st.factoryInitialized = true := (get_success_elim hget).2.1
    have hlook : List.lookup name st.lookupTable = some i := by
      obtain ⟨-, -, ho⟩ := get_success_elim hget
      exact ho.symm
    have hrm := remove_found_eval hget hv
    have hree := removeEntry_found_eval hlook
    have hfiR : ({ StaticFactory.removeEntry st name with
        dirtyVolumes := insertDirty v.id (StaticFactory.removeEntry st name).dirtyVolumes } :
        VolumeRegistry).factoryInitialized = true := by
      show (StaticFactory.removeEntry st name).factoryInitialized = true
      rw [(removeEntry_frame st name).2.2]
      exact hfi0
    have htabR : List.lookup name ({ StaticFactory.removeEntry st name with
        dirtyVolumes := insertDirty v.id (StaticFactory.removeEntry st name).dirtyVolumes } :
        VolumeRegistry).lookupTable = none := by
      show List.lookup name (StaticFactory.removeEntry st name).lookupTable = none
      rw [hree]
      exact lookup_filter_self name _
    refine ⟨_, hrm, ?_, ?_, ?_, ?_, ?_⟩
    · show ((StaticFactory.removeEntry st name).volumes.get? i).map
        (fun w => w.initialized) = some false
      rw [hree]
      show ((modifyAt st.volumes i fun v => { v with initialized := false }).get? i).map
        (fun w => w.initialized) = some false
      rw [get?_modifyAt_self, hv]
      rfl
    · exact htabR
    · show i ∈ insertDirty v.id (StaticFactory.removeEntry st name).dirtyVolumes
      rw [hid]
      exact mem_insertDirty_self _ _
    · unfold Volume.get StaticFactory.get
      rw [if_pos hfiR, htabR]
    · intro j hfreeR
      exact ⟨_, createFromFile_ok_eval hfiR htabR hfreeR⟩

theorem remove_then_get_and_recreate_witness :
    ∃ st', Volume.remove regOneA "a" = Outcome.success () st' ∧
      (st'.volumes.get? 0).map (fun w => w.initialized) = some false ∧
      List.lookup "a" st'.lookupTable = none ∧
      0 ∈ st'.dirtyVolumes ∧
      Volume.get st' "a" = Outcome.success none st' ∧
      (∀ j, firstFreeIdx st'.volumes = some j →
        ∃ st'', Volume.createFromFile st' "a" "a.nvdb" FileOutcome.ok =
          Outcome.success j st'') :=
  (remove_then_get_and_recreate regOneA "a" "a.nvdb").2 0
    { initialized := true, name := "a", id := 0, hasGrid := true }
    (by decide) (by decide) rfl
